import Mathlib

/-!
Shallow embedding of the analysis request/response flow of the
cf-compound-selection frontend.

Embedded source functions:
- the elapsed-time formatting block and the submit handler `handleAnalyze`
  of the analyze page (lines 18-83 of the analyze page component);
- the button-disabled condition of the analyze page
  (`disabled = isLoading || not drugName`, line 112);
- `formatToolCall` and `ResultContent` of the result page
  (frontend/src/app/analyze/result/page.tsx);
- the result store `AnalysisProvider` / `useAnalysis`
  (frontend/src/context/AnalysisContext.tsx).

Numbers that the page manipulates (elapsed milliseconds, confidence,
relevance) are modelled as rationals with exact decimal rounding semantics
for `toFixed`; fetch outcomes are an explicit sum type; the observable
effects of the handler (network calls, toasts, navigation, store writes,
busy flag) are recorded in an explicit page state.
-/

/-- The `toolTrace` field of a result: the TypeScript type is
`string | string[] | null | undefined`; `absent` covers both `null` and
`undefined`. -/
inductive ToolTrace where
  | absent : ToolTrace
  | single (s : String) : ToolTrace
  | many (items : List String) : ToolTrace
  deriving DecidableEq, Repr

/-- The `AnalysisResult` interface of AnalysisContext.tsx. -/
structure AnalysisResult where
  compound : String
  conclusion : String
  rationale : String
  runtime : String
  confidence : ℚ
  relevance : ℚ
  toolTrace : ToolTrace
  deriving DecidableEq, Repr

/-- The fields of a parsed 2xx response body read by `handleAnalyze`. -/
structure ResponseData where
  conclusion : String
  rationale : String
  confidence : ℚ
  relevance : ℚ
  tool_trace : ToolTrace
  deriving DecidableEq, Repr

/-- Outcome of the `fetch` call and subsequent body reads, as observed by
the `try` block of `handleAnalyze`:
- `transportFault m`: `fetch` itself rejected; `m = some s` when the thrown
  value is an `Error` with message `s`, `none` when it is not an `Error`;
- `httpError d`: `response.ok` is false; `d` is the `detail` field of the
  parsed error body, `none` when the body is unparseable or has no
  `detail` field;
- `okUnparseable m`: `response.ok` is true but `response.json()` threw a
  `SyntaxError` with message `m`;
- `okParsed data`: `response.ok` is true and the body parsed to `data`. -/
inductive FetchOutcome where
  | transportFault (message : Option String) : FetchOutcome
  | httpError (detail : Option String) : FetchOutcome
  | okUnparseable (message : String) : FetchOutcome
  | okParsed (data : ResponseData) : FetchOutcome
  deriving DecidableEq, Repr

/-- An outcome is a failure when it is anything but a parsed 2xx body. -/
def FetchOutcome.isFailure : FetchOutcome → Bool
  | .okParsed _ => false
  | _ => true

/-- JavaScript `toFixed(0)` on an exact rational value: round to the
nearest integer, ties away from zero toward the larger value (round half
up for the non-negative inputs this code feeds it). -/
def toFixed0 (q : ℚ) : String := toString (round q)

/-- JavaScript `toFixed(2)` on an exact non-negative rational value:
round to the nearest hundredth and render with exactly two digits after
the decimal point. -/
def toFixed2 (q : ℚ) : String :=
  let n : ℤ := round (q * 100)
  let intPart : ℤ := n / 100
  let fracPart : ℕ := (n % 100).toNat
  toString intPart ++ "." ++ (if fracPart < 10 then "0" else "") ++ toString fracPart

/-- The elapsed-time formatting block of `handleAnalyze` (lines 52-62 of
the analyze page): `< 1000` renders integer milliseconds with suffix
`ms`; `< 60000` renders seconds with two decimals and suffix `s`;
otherwise `Math.floor(runtimeMs / 60000)` minutes and
`((runtimeMs % 60000) / 1000).toFixed(0)` seconds. -/
def formatElapsed (runtimeMs : ℚ) : String :=
  if runtimeMs < 1000 then
    toFixed0 runtimeMs ++ "ms"
  else if runtimeMs < 60000 then
    toFixed2 (runtimeMs / 1000) ++ "s"
  else
    let minutes : ℤ := ⌊runtimeMs / 60000⌋
    let seconds : String := toFixed0 ((runtimeMs - 60000 * (minutes : ℚ)) / 1000)
    toString minutes ++ "m " ++ seconds ++ "s"

/-- The expression `errorData?.detail || "Failed to analyze compound"` of
line 38: the JavaScript `||` takes the fallback when `detail` is absent
or falsy, and an empty string is falsy. -/
def httpErrorMessage (detail : Option String) : String :=
  match detail with
  | some d => if d = "" then "Failed to analyze compound" else d
  | none => "Failed to analyze compound"

/-- The observable state of the analyze page and its collaborators:
the `isLoading` flag, the controlled `drugName` input, the result store
of `AnalysisContext`, the current route, the emitted error toasts, and
the `drug_name` payloads of the network calls issued so far. -/
structure PageState where
  isLoading : Bool
  drugName : String
  store : Option AnalysisResult
  route : String
  toasts : List String
  networkCalls : List String
  deriving DecidableEq, Repr

/-- `setResult` of the `AnalysisProvider`: React `useState` setter, the
new value replaces the old slot content. -/
def setResult (_slot : Option AnalysisResult) (r : AnalysisResult) : Option AnalysisResult :=
  some r

/-- Reading `result` from the provider value: returns the slot content. -/
def getResult (slot : Option AnalysisResult) : Option AnalysisResult :=
  slot

/-- The submit handler `handleAnalyze` (lines 18-83 of the analyze page),
as a function of the page state, the outcome of the single `fetch` it
issues, and the elapsed milliseconds measured between its two
`performance.now()` calls. The body has no guard: it sets the loading
flag, issues the request with the current `drugName` unconditionally,
then on a parsed 2xx body writes the result to the store and navigates
to `/analyze/result`; on any failure it toasts the error message; the
`finally` block clears the loading flag. -/
def handleAnalyze (st : PageState) (outcome : FetchOutcome) (elapsedMs : ℚ) : PageState :=
  let st1 : PageState :=
    { st with isLoading := true, networkCalls := st.networkCalls ++ [st.drugName] }
  let st2 : PageState :=
    match outcome with
    | .transportFault msg =>
        { st1 with toasts := st1.toasts ++ [msg.getD "An unexpected error occurred"] }
    | .httpError detail =>
        { st1 with toasts := st1.toasts ++ [httpErrorMessage detail] }
    | .okUnparseable msg =>
        { st1 with toasts := st1.toasts ++ [msg] }
    | .okParsed data =>
        { st1 with
            store := setResult st1.store
              { compound := st1.drugName
                conclusion := data.conclusion
                rationale := data.rationale
                runtime := formatElapsed elapsedMs
                confidence := data.confidence
                relevance := data.relevance
                toolTrace := data.tool_trace }
            route := "/analyze/result" }
  { st2 with isLoading := false }

/-- The `disabled` condition of the Analyze button (line 112 of the
analyze page): `isLoading || !drugName`; in JavaScript `!s` on a string
is true exactly for the empty string. -/
def analyzeButtonDisabled (isLoading : Bool) (drugName : String) : Bool :=
  isLoading || drugName == ""

/-- Blank in the sense of the specification: empty or whitespace-only. -/
def isBlank (s : String) : Bool :=
  s.data.all Char.isWhitespace

/-- Output of `formatToolCall` in the result page: either a plain text
node or an unordered list of the trace items. -/
inductive ToolCallRender where
  | text (s : String) : ToolCallRender
  | bulletList (items : List String) : ToolCallRender
  deriving DecidableEq, Repr

/-- `formatToolCall` (result page, lines 9-24): `!toolTrace` yields the
fallback text (this catches `null`, `undefined` and the empty string);
an array yields the fallback when empty and otherwise a list with one
item per element in order; a non-empty string is returned as is. -/
def formatToolCall (toolTrace : ToolTrace) : ToolCallRender :=
  match toolTrace with
  | .absent => .text "No tool call information available."
  | .single s =>
      if s = "" then .text "No tool call information available." else .text s
  | .many items =>
      if items.length = 0 then .text "No tool call information available."
      else .bulletList items

/-- What `ResultContent` (result page, lines 49-56) does before rendering
any content: an optional navigation target and the optionally rendered
result. -/
structure ResultRender where
  redirect : Option String
  rendered : Option AnalysisResult
  deriving DecidableEq, Repr

/-- `ResultContent`: with an empty store it pushes `/analyze` and returns
`null`; with a populated store it renders the stored result. -/
def ResultContent (slot : Option AnalysisResult) : ResultRender :=
  match getResult slot with
  | none => { redirect := some "/analyze", rendered := none }
  | some r => { redirect := none, rendered := some r }

/-- The context value `{ result, setResult }`; for the model only the
readable part matters. -/
structure AnalysisContextValue where
  result : Option AnalysisResult
  deriving DecidableEq, Repr

/-- `useAnalysis` (AnalysisContext.tsx, lines 34-40): when the component
is outside every `AnalysisProvider` the context is `undefined` and the
hook throws; inside a provider it returns the provider value. -/
def useAnalysis (ctx : Option AnalysisContextValue) : Except String AnalysisContextValue :=
  match ctx with
  | none => .error "useAnalysis must be used within an AnalysisProvider"
  | some value => .ok value

/-- The message the `catch` block of `handleAnalyze` surfaces through
`toast.error` for each failing outcome: the thrown `Error` message when
there is one, otherwise "An unexpected error occurred". -/
def failureMessage : FetchOutcome → String
  | .transportFault msg => msg.getD "An unexpected error occurred"
  | .httpError detail => httpErrorMessage detail
  | .okUnparseable msg => msg
  | .okParsed _ => ""

/-- A concrete page state before a submission. -/
def sampleState : PageState :=
  { isLoading := false, drugName := "JQ1", store := none, route := "/analyze",
    toasts := [], networkCalls := [] }

/-- A concrete page state with a blank compound name. -/
def blankState : PageState :=
  { isLoading := false, drugName := "", store := none, route := "/analyze",
    toasts := [], networkCalls := [] }

/-- A concrete page state while a submission is in flight. -/
def busyState : PageState :=
  { isLoading := true, drugName := "JQ1", store := none, route := "/analyze",
    toasts := [], networkCalls := ["JQ1"] }

/-- C1: when the HTTP call returns a 2xx response with a parseable JSON
body, `handleAnalyze` writes to the result store a success value whose
compound is the submitted name, whose conclusion, rationale, confidence,
relevance and tool trace are the corresponding response fields, whose
runtime is the elapsed-time formatter applied to the measured elapsed
milliseconds, and navigates to the result view. -/
theorem C1_success_writes_store_and_navigates
    (st : PageState) (data : ResponseData) (elapsedMs : ℚ) :
    (handleAnalyze st (.okParsed data) elapsedMs).store =
      some { compound := st.drugName
             conclusion := data.conclusion
             rationale := data.rationale
             runtime := formatElapsed elapsedMs
             confidence := data.confidence
             relevance := data.relevance
             toolTrace := data.tool_trace }
    ∧ (handleAnalyze st (.okParsed data) elapsedMs).route = "/analyze/result" :=
  ⟨rfl, rfl⟩

/-- C2: every failing outcome leaves the result store and the route
unchanged, appends exactly one toast carrying the failure message, and
ends with the busy flag cleared; a successful outcome also ends with the
busy flag cleared. -/
theorem C2_failure_preserves_state_and_clears_busy
    (st : PageState) (outcome : FetchOutcome) (elapsedMs : ℚ)
    (h : outcome.isFailure = true) :
    (handleAnalyze st outcome elapsedMs).store = st.store
    ∧ (handleAnalyze st outcome elapsedMs).route = st.route
    ∧ (handleAnalyze st outcome elapsedMs).toasts = st.toasts ++ [failureMessage outcome]
    ∧ (handleAnalyze st outcome elapsedMs).isLoading = false
    ∧ ∀ data : ResponseData, (handleAnalyze st (.okParsed data) elapsedMs).isLoading = false := by
  cases outcome with
  | transportFault msg => exact ⟨rfl, rfl, rfl, rfl, fun _ => rfl⟩
  | httpError detail => exact ⟨rfl, rfl, rfl, rfl, fun _ => rfl⟩
  | okUnparseable msg => exact ⟨rfl, rfl, rfl, rfl, fun _ => rfl⟩
  | okParsed data => exact absurd h (by simp [FetchOutcome.isFailure])

/-- Witness for C2 at a concrete non-2xx outcome. -/
theorem C2_failure_witness :
    (handleAnalyze sampleState (FetchOutcome.httpError (some "rate limited")) 0).store
        = sampleState.store
    ∧ (handleAnalyze sampleState (FetchOutcome.httpError (some "rate limited")) 0).route
        = sampleState.route
    ∧ (handleAnalyze sampleState (FetchOutcome.httpError (some "rate limited")) 0).toasts
        = sampleState.toasts ++ [failureMessage (FetchOutcome.httpError (some "rate limited"))]
    ∧ (handleAnalyze sampleState (FetchOutcome.httpError (some "rate limited")) 0).isLoading
        = false :=
  let h := C2_failure_preserves_state_and_clears_busy sampleState
    (FetchOutcome.httpError (some "rate limited")) 0 rfl
  ⟨h.1, h.2.1, h.2.2.1, h.2.2.2.1⟩

/-- C3 counterexample: a non-2xx response whose body contains an empty
`detail` field does not yield that detail value as the message; the code
falls back because the JavaScript `||` treats the empty string as falsy. -/
theorem C3_counterexample :
    httpErrorMessage (some "") ≠ "" ∧ httpErrorMessage (some "") = "Failed to analyze compound" :=
  ⟨by decide, rfl⟩

/-- C3 amended: a non-2xx response whose body contains a non-empty
`detail` field yields that detail as the failure message; with no
parseable body, a missing `detail`, or an empty `detail`, the message is
"Failed to analyze compound"; `handleAnalyze` surfaces exactly this
message for the httpError outcome. -/
theorem C3_http_error_message (d : String) (hd : d ≠ "") :
    httpErrorMessage (some d) = d
    ∧ httpErrorMessage none = "Failed to analyze compound"
    ∧ httpErrorMessage (some "") = "Failed to analyze compound"
    ∧ ∀ (st : PageState) (det : Option String) (e : ℚ),
        (handleAnalyze st (.httpError det) e).toasts = st.toasts ++ [httpErrorMessage det] :=
  ⟨by simp [httpErrorMessage, hd], rfl, rfl, fun st det e => rfl⟩

/-- Witness for C3 at the detail value of the specification example. -/
theorem C3_http_error_message_witness :
    httpErrorMessage (some "rate limited") = "rate limited" :=
  (C3_http_error_message "rate limited" (by decide)).1

/-- C4: the elapsed-time formatter has three buckets: below 1000 it
renders the rounded integer milliseconds with suffix ms, below 60000 the
seconds with two decimals and suffix s, and otherwise floor(x / 60000)
minutes with round((x mod 60000) / 1000) seconds; in particular the five
specification test points hold. -/
theorem C4_formatElapsed_buckets :
    formatElapsed 999 = "999ms"
    ∧ formatElapsed 1000 = "1.00s"
    ∧ formatElapsed 59999 = "60.00s"
    ∧ formatElapsed 60000 = "1m 0s"
    ∧ formatElapsed 125000 = "2m 5s"
    ∧ (∀ x : ℚ, x < 1000 → formatElapsed x = toString (round x) ++ "ms")
    ∧ (∀ x : ℚ, 1000 ≤ x → x < 60000 → formatElapsed x = toFixed2 (x / 1000) ++ "s")
    ∧ (∀ x : ℚ, 60000 ≤ x → formatElapsed x =
        toString ⌊x / 60000⌋ ++ "m "
          ++ toString (round ((x - 60000 * (⌊x / 60000⌋ : ℚ)) / 1000)) ++ "s") := by
  refine ⟨?_, ?_, ?_, ?_, ?_, ?_, ?_, ?_⟩
  · norm_num [formatElapsed, toFixed0, round_eq]
    rfl
  · norm_num [formatElapsed, toFixed2, round_eq]
    rfl
  · norm_num [formatElapsed, toFixed2, round_eq]
    rfl
  · norm_num [formatElapsed, toFixed0, round_eq]
    rfl
  · norm_num [formatElapsed, toFixed0, round_eq]
    rfl
  · intro x hx
    rw [formatElapsed, if_pos hx]
    rfl
  · intro x hx1 hx2
    rw [formatElapsed, if_neg (not_lt.mpr hx1), if_pos hx2]
  · intro x hx
    rw [formatElapsed, if_neg (not_lt.mpr (by linarith)), if_neg (not_lt.mpr hx)]
    rfl

/-- Witness for C4 inside the first bucket. -/
theorem C4_formatElapsed_witness :
    formatElapsed 500 = toString (round (500 : ℚ)) ++ "ms" :=
  C4_formatElapsed_buckets.2.2.2.2.2.1 500 (by norm_num)

/-- C5 counterexample: with a blank (empty) compound name, invoking the
handler does issue a network call carrying the blank name. -/
theorem C5_counterexample :
    isBlank blankState.drugName = true
    ∧ (handleAnalyze blankState (FetchOutcome.httpError none) 0).networkCalls ≠ [] := by
  exact ⟨by decide, by decide⟩

/-- C5 amended: the handler performs no blank-input check and issues a
network call with the current name whenever it is invoked; blank input
is only prevented by the UI button, whose disabled condition rejects
exactly the empty name (and the busy state), so a whitespace-only name
is not rejected at all. -/
theorem C5_blank_not_rejected_by_handler :
    (∀ (st : PageState) (outcome : FetchOutcome) (e : ℚ),
        (handleAnalyze st outcome e).networkCalls = st.networkCalls ++ [st.drugName])
    ∧ (∀ b : Bool, analyzeButtonDisabled b "" = true)
    ∧ analyzeButtonDisabled false " " = false
    ∧ isBlank " " = true := by
  refine ⟨fun st outcome e => ?_, fun b => ?_, rfl, by decide⟩
  · cases outcome <;> rfl
  · cases b <;> rfl

/-- C6 counterexample: invoking the handler while a submission is in
flight is not a no-op: a second network call is issued. -/
theorem C6_counterexample :
    busyState.isLoading = true
    ∧ (handleAnalyze busyState (FetchOutcome.httpError none) 0).networkCalls
        ≠ busyState.networkCalls := by
  exact ⟨rfl, by decide⟩

/-- C6 amended: the handler has no in-flight guard: invoked while busy
it issues another network call; re-entrant submissions are prevented
only by the UI button being disabled whenever the busy flag is set. -/
theorem C6_busy_not_rejected_by_handler
    (st : PageState) (outcome : FetchOutcome) (e : ℚ) (_busy : st.isLoading = true) :
    (handleAnalyze st outcome e).networkCalls = st.networkCalls ++ [st.drugName]
    ∧ ∀ name : String, analyzeButtonDisabled true name = true := by
  exact ⟨by cases outcome <;> rfl, fun name => rfl⟩

/-- Witness for C6 at a concrete busy state. -/
theorem C6_busy_witness :
    (handleAnalyze busyState (FetchOutcome.httpError none) 0).networkCalls
      = busyState.networkCalls ++ [busyState.drugName] :=
  (C6_busy_not_rejected_by_handler busyState (FetchOutcome.httpError none) 0 rfl).1

/-- C7: reached with an empty result store, the result view redirects to
the submit view and renders no result content. -/
theorem C7_empty_store_redirects :
    (ResultContent none).redirect = some "/analyze"
    ∧ (ResultContent none).rendered = none :=
  ⟨rfl, rfl⟩

/-- C8: the tool-trace renderer produces the fallback text when the
trace is absent or an empty array, and for a non-empty array a list of
exactly the elements in order. -/
theorem C8_tool_trace_rendering :
    formatToolCall .absent = .text "No tool call information available."
    ∧ formatToolCall (.many []) = .text "No tool call information available."
    ∧ ∀ items : List String, items ≠ [] →
        formatToolCall (.many items) = .bulletList items := by
  refine ⟨rfl, rfl, fun items h => ?_⟩
  simp only [formatToolCall]
  rw [if_neg (by simpa [List.length_eq_zero] using h)]

/-- Witness for C8 at a concrete two-element trace. -/
theorem C8_tool_trace_witness :
    formatToolCall (.many ["a", "b"]) = .bulletList ["a", "b"] :=
  C8_tool_trace_rendering.2.2 ["a", "b"] (by decide)

/-- C9: storing a success value with the provider setter and reading it
back returns an equal value, for every success value, in particular for
all confidence and relevance scores in the range 0 to 100. -/
theorem C9_store_roundtrip (slot : Option AnalysisResult) (r : AnalysisResult) :
    getResult (setResult slot r) = some r :=
  rfl

/-- C10: reading the analysis store outside every provider throws the
documented error; inside a provider the hook returns the provider value
and never throws. -/
theorem C10_useAnalysis_provider_guard :
    useAnalysis none = .error "useAnalysis must be used within an AnalysisProvider"
    ∧ ∀ value : AnalysisContextValue, useAnalysis (some value) = .ok value :=
  ⟨rfl, fun _ => rfl⟩
